import Mathlib

/-!
Verification of the weather-forecast tool pipeline.

The development shallowly embeds the two source files of the repository:
`weather.ts` (geocode -> forecast -> format pipeline) and the `createTool`
wrapper of `main.ts`.  Network effects are modelled by an explicit
environment `Env` mapping each request to the response the remote service
would give, and every operation returns, besides its result, the list of
network requests it issued.  JavaScript exceptions are modelled by
`Except`; JavaScript `undefined` flowing out of an out-of-bounds array
index is modelled by `Option`.
-/

/-- A resolved geographic point (interface `Coordinates`, weather.ts lines
98-101).  JavaScript numbers obtained from `parseFloat` of the service's
decimal strings are modelled as rationals. -/
structure Coordinates where
  lat : Rat
  lon : Rat
deriving DecidableEq

/-- One day's weather (interface `WeatherData`, weather.ts lines 103-110).
Every field other than the description is produced by indexing a daily
array of the forecast response at the requested day; in JavaScript an
out-of-bounds index yields `undefined`, which is modelled by `Option`. -/
structure WeatherData where
  date : Option String
  maxTemp : Option Rat
  minTemp : Option Rat
  precipitation : Option Rat
  weatherCode : Option Int
  weatherDescription : String
deriving DecidableEq

/-- The fixed WMO code-to-description lookup table (`weatherCodes`,
weather.ts lines 113-138).  A JavaScript object keyed by numbers is a
partial map; absence of a key is `none`. -/
def weatherCodes : Int → Option String
  | 0 => some ("Clear sky")
  | 1 => some ("Mainly clear")
  | 2 => some ("Partly cloudy")
  | 3 => some ("Overcast")
  | 45 => some ("Foggy")
  | 48 => some ("Depositing rime fog")
  | 51 => some ("Light drizzle")
  | 53 => some ("Moderate drizzle")
  | 55 => some ("Dense drizzle")
  | 61 => some ("Slight rain")
  | 63 => some ("Moderate rain")
  | 65 => some ("Heavy rain")
  | 71 => some ("Slight snow")
  | 73 => some ("Moderate snow")
  | 75 => some ("Heavy snow")
  | 77 => some ("Snow grains")
  | 80 => some ("Slight rain showers")
  | 81 => some ("Moderate rain showers")
  | 82 => some ("Violent rain showers")
  | 85 => some ("Slight snow showers")
  | 86 => some ("Heavy snow showers")
  | 95 => some ("Thunderstorm")
  | 96 => some ("Thunderstorm with slight hail")
  | 99 => some ("Thunderstorm with heavy hail")
  | _ => none

/-- The expression `weatherCodes[weatherCode] || 'Unknown'` of weather.ts
line 194.  When the index is `undefined` (out-of-bounds day) the object
lookup is `undefined`; every value of the table is a non-empty (hence
truthy) string, so the JavaScript `||` is exactly the default on
`undefined`. -/
def describeWeatherCode : Option Int → String
  | none => "Unknown"
  | some c => (weatherCodes c).getD ("Unknown")

/-- The failures the pipeline can raise.  The first three are the `throw`
statements of weather.ts lines 149, 170 and 180; `noPlaceRecord` is the
TypeError raised at line 153/156 when `data.places` is empty and field
access on `places[0]` (`undefined`) is attempted. -/
inductive WErr where
  | geocodeFailed (zipCode : String)
  | noPlaceRecord
  | rangeError
  | fetchFailed
deriving DecidableEq

/-- Both failure modes of `getCoordinatesFromZip` belong to the spec's
`GeocodeError` class (address-resolution failed or no matching place). -/
def WErr.isGeocodeError : WErr → Bool
  | WErr.geocodeFailed _ => true
  | WErr.noPlaceRecord => true
  | _ => false

/-- One place record of the zippopotam.us response.  The service returns
latitude and longitude as numeric strings; the fields here hold the
values that `parseFloat` extracts from them (weather.ts lines 156-157). -/
structure ZippoPlace where
  latitude : Rat
  longitude : Rat
deriving DecidableEq

/-- The observable part of a zippopotam.us response: the HTTP success flag
`response.ok` and the parsed `places` array. -/
structure ZippoResponse where
  ok : Bool
  places : List ZippoPlace
deriving DecidableEq

/-- The query parameters of the Open-Meteo request URL assembled at
weather.ts line 175. -/
structure ForecastRequest where
  latitude : Rat
  longitude : Rat
  daily : List String
  temperature_unit : String
  timezone : String
  forecast_days : Int
deriving DecidableEq

/-- The URL construction of weather.ts line 175: fixed daily aggregate
fields, Fahrenheit, US Eastern timezone, and the requested day count. -/
def forecastRequest (lat lon : Rat) (forecastDays : Int) : ForecastRequest :=
  { latitude := lat
    longitude := lon
    daily := ["temperature_2m_max", "temperature_2m_min", "precipitation_sum", "weather_code"]
    temperature_unit := "fahrenheit"
    timezone := "America/New_York"
    forecast_days := forecastDays }

/-- The observable part of an Open-Meteo response: the HTTP success flag
and the parallel daily arrays used by weather.ts lines 186-194. -/
structure ForecastResponse where
  ok : Bool
  time : List String
  temperature_2m_max : List Rat
  temperature_2m_min : List Rat
  precipitation_sum : List Rat
  weather_code : List Int
deriving DecidableEq

/-- A network request issued by the pipeline, for counting and inspecting
the calls a run performs. -/
inductive Request where
  | geocode (zipCode : String)
  | forecast (req : ForecastRequest)
deriving DecidableEq

/-- The network environment: what each remote service would answer to each
request.  Both services are consumed read-only and are deterministic
within one run. -/
structure Env where
  zippo : String → ZippoResponse
  openMeteo : ForecastRequest → ForecastResponse

/-- `getCoordinatesFromZip` (weather.ts lines 145-159).  Issues one
geocode request; throws on a non-success status; otherwise reads
`data.places[0]` — which in JavaScript raises a TypeError when the array
is empty — and returns the parsed latitude/longitude of that record. -/
def getCoordinatesFromZip (env : Env) (zipCode : String) :
    Except WErr Coordinates × List Request :=
  if (env.zippo zipCode).ok = false then
    (Except.error (WErr.geocodeFailed zipCode), [Request.geocode zipCode])
  else
    match (env.zippo zipCode).places with
    | [] => (Except.error WErr.noPlaceRecord, [Request.geocode zipCode])
    | place :: _ =>
        (Except.ok (Coordinates.mk place.latitude place.longitude), [Request.geocode zipCode])

/-- The record construction of weather.ts lines 188-195: select day `i`
from each parallel daily array. -/
def selectDay (data : ForecastResponse) (i : Nat) : WeatherData :=
  { date := data.time.get? i
    maxTemp := data.temperature_2m_max.get? i
    minTemp := data.temperature_2m_min.get? i
    precipitation := data.precipitation_sum.get? i
    weatherCode := data.weather_code.get? i
    weatherDescription := describeWeatherCode (data.weather_code.get? i) }

/-- `getWeather` (weather.ts lines 168-196).  Validates the day offset
locally before any network call, then issues exactly one forecast request
for `nextday + 1` days and selects the record at index `nextday`. -/
def getWeather (env : Env) (lat lon : Rat) (nextday : Int) :
    Except WErr WeatherData × List Request :=
  if nextday < 0 ∨ nextday > 16 then
    (Except.error WErr.rangeError, [])
  else
    if (env.openMeteo (forecastRequest lat lon (nextday + 1))).ok = false then
      (Except.error WErr.fetchFailed, [Request.forecast (forecastRequest lat lon (nextday + 1))])
    else
      (Except.ok (selectDay (env.openMeteo (forecastRequest lat lon (nextday + 1))) nextday.toNat),
       [Request.forecast (forecastRequest lat lon (nextday + 1))])

/-- `getWeatherByZip` (weather.ts lines 204-207): geocode, then forecast,
with JavaScript exception propagation (an exception from the first await
prevents the second call). -/
def getWeatherByZip (env : Env) (zipCode : String) (daysAhead : Int) :
    Except WErr WeatherData × List Request :=
  match getCoordinatesFromZip env zipCode with
  | (Except.error e, trace) => (Except.error e, trace)
  | (Except.ok coords, trace) =>
      match getWeather env coords.lat coords.lon daysAhead with
      | (result, trace2) => (result, trace ++ trace2)

/-- Rendering of an already-defined value inside a template literal:
strings interpolate verbatim, `undefined` interpolates as the word
undefined. -/
def jsStr : Option String → String
  | some s => s
  | none => "undefined"

/-- Rendering of a JavaScript number inside a template literal.  Integral
values print with no fractional part; the digit rendering of non-integral
values is abstracted by `toString` on rationals. -/
def jsNumber (q : Rat) : String :=
  if q.den = 1 then toString q.num else toString q

/-- Rendering of a possibly-`undefined` number inside a template
literal. -/
def jsNumStr : Option Rat → String
  | some q => jsNumber q
  | none => "undefined"

/-- `String.prototype.trim`: remove whitespace characters from both ends
(weather.ts line 222). -/
def jsTrim (l : List Char) : List Char :=
  ((l.dropWhile Char.isWhitespace).reverse.dropWhile Char.isWhitespace).reverse

/-- `formatWeather` (weather.ts lines 214-223): the six-line template
literal, trimmed. -/
def formatWeather (weather : WeatherData) : String :=
  String.mk (jsTrim (String.data
    ("\nWeather Forecast for " ++ jsStr weather.date
      ++ "\nCondition: " ++ weather.weatherDescription
      ++ "\nHigh: " ++ jsNumStr weather.maxTemp
      ++ "°F\nLow: " ++ jsNumStr weather.minTemp
      ++ "°F\nPrecipitation: " ++ jsNumStr weather.precipitation
      ++ " mm\nDescription: " ++ weather.weatherDescription
      ++ "\n  ")))

/-- `getReadableWeatherByZip` (weather.ts lines 225-228): fetch, then
format, with exception propagation. -/
def getReadableWeatherByZip (env : Env) (zipCode : String) (daysAhead : Int) :
    Except WErr String × List Request :=
  match getWeatherByZip env zipCode daysAhead with
  | (Except.error e, trace) => (Except.error e, trace)
  | (Except.ok weather, trace) => (Except.ok (formatWeather weather), trace)

/-- The schema-validation failure raised by `parseAsync` (a ZodError),
carrying the field-level issues. -/
structure ValidationError where
  issues : List String
deriving DecidableEq

/-- The interchange (JSON Schema) representation produced by
`zodToJsonSchema` at main.ts line 60: an optional root `type` marker plus
the per-field declarations. -/
structure JsonSchema where
  type : Option String
  properties : List (String × String)
  required : List String
deriving DecidableEq

/-- The two capabilities of a Zod object schema that `createTool` uses:
`parseAsync` (validate a raw payload into a typed value or throw a
ZodError) and its `zodToJsonSchema` image. -/
structure ZodSchemaM (Raw P : Type) where
  parse : Raw → Except ValidationError P
  toJsonSchema : JsonSchema

/-- The descriptor returned by `createTool` (main.ts lines 67-75).  The
`execute` field additionally reports the list of argument values the
wrapped `options.execute` was invoked with, so that the number of
invocations is observable. -/
structure Tool (Raw P Ctx R : Type) where
  name : String
  description : String
  parameters : JsonSchema
  execute : Raw → Ctx → Except ValidationError R × List P

/-- The options record accepted by `createTool` (main.ts lines 50-58). -/
structure CreateToolOptions (Raw P Ctx R : Type) where
  name : String
  description : String
  schema : ZodSchemaM Raw P
  execute : P → Ctx → R

/-- `createTool` (main.ts lines 50-76).  Converts the schema to JSON
Schema, supplies the root `type` marker when the conversion left it falsy
(absent or the empty string), and wraps `options.execute` behind
`parseAsync` validation. -/
def createTool {Raw P Ctx R : Type} (options : CreateToolOptions Raw P Ctx R) :
    Tool Raw P Ctx R :=
  { name := options.name
    description := options.description
    parameters :=
      if options.schema.toJsonSchema.type = none ∨ options.schema.toJsonSchema.type = some "" then
        { options.schema.toJsonSchema with type := some ("object") }
      else options.schema.toJsonSchema
    execute := fun params ctx =>
      match options.schema.parse params with
      | Except.error e => (Except.error e, [])
      | Except.ok validatedParams =>
          (Except.ok (options.execute validatedParams ctx), [validatedParams]) }

lemma coord_trace (env : Env) (zipCode : String) :
    (getCoordinatesFromZip env zipCode).2 = [Request.geocode zipCode] := by
  unfold getCoordinatesFromZip
  split
  · rfl
  · split <;> rfl

/-- A network environment in which both services answer with failures;
used to instantiate universally quantified theorems at a concrete
environment. -/
def envDown : Env :=
  Env.mk (fun _ => ZippoResponse.mk false [])
    (fun _ => ForecastResponse.mk false [] [] [] [] [])

/-- A network environment whose forecast service answers success with
four days of data. -/
def envFourDays : Env :=
  Env.mk (fun _ => ZippoResponse.mk false [])
    (fun _ => ForecastResponse.mk true ["d0", "d1", "d2", "d3"] [70, 71, 72, 73]
      [50, 51, 52, 53] [0, 1, 2, 3] [0, 1, 2, 3])

/-- Claim C1: a day offset outside the inclusive range 0..16 makes
`getWeather` fail with the RangeError while issuing zero network
requests, and a day offset inside the range passes the purely local
bounds check, after which exactly the one forecast request is issued. -/
theorem weather_c1_range_check (env : Env) (lat lon : Rat) (d : Int) :
    ((d < 0 ∨ d > 16) → getWeather env lat lon d = (Except.error WErr.rangeError, []))
    ∧ (0 ≤ d → d ≤ 16 →
        (getWeather env lat lon d).1 ≠ Except.error WErr.rangeError
        ∧ (getWeather env lat lon d).2 = [Request.forecast (forecastRequest lat lon (d + 1))]) := by
  constructor
  · intro h
    unfold getWeather
    rw [if_pos h]
  · intro h0 h16
    unfold getWeather
    rw [if_neg (by omega)]
    constructor
    · split <;> simp
    · split <;> rfl

/-- Concrete instance of C1: at offset 17 the call fails locally with no
request; at offset 3 the bounds check passes and one forecast request is
issued. -/
theorem weather_c1_range_check_witness :
    getWeather envDown 0 0 17 = (Except.error WErr.rangeError, [])
    ∧ (getWeather envDown 0 0 3).2 = [Request.forecast (forecastRequest 0 0 (3 + 1))] :=
  ⟨(weather_c1_range_check envDown 0 0 17).1 (Or.inr (by decide)),
   ((weather_c1_range_check envDown 0 0 3).2 (by decide) (by decide)).2⟩

/-- Claim C2: for a valid day offset `d`, `getWeather` issues exactly one
forecast request, whose window is `d + 1` days of the four daily
aggregates in Fahrenheit anchored to US Eastern time, and on a successful
response returns the record selected at index `d` of the parallel daily
series. -/
theorem weather_c2_request_window (env : Env) (lat lon : Rat) (d : Int)
    (h0 : 0 ≤ d) (h16 : d ≤ 16) :
    (getWeather env lat lon d).2 = [Request.forecast (forecastRequest lat lon (d + 1))]
    ∧ (forecastRequest lat lon (d + 1)).forecast_days = d + 1
    ∧ (forecastRequest lat lon (d + 1)).daily
        = ["temperature_2m_max", "temperature_2m_min", "precipitation_sum", "weather_code"]
    ∧ (forecastRequest lat lon (d + 1)).temperature_unit = "fahrenheit"
    ∧ (forecastRequest lat lon (d + 1)).timezone = "America/New_York"
    ∧ ((env.openMeteo (forecastRequest lat lon (d + 1))).ok = true →
        (getWeather env lat lon d).1
          = Except.ok (selectDay (env.openMeteo (forecastRequest lat lon (d + 1))) d.toNat))
    ∧ (∀ resp : ForecastResponse,
        (selectDay resp d.toNat).date = resp.time.get? d.toNat
        ∧ (selectDay resp d.toNat).maxTemp = resp.temperature_2m_max.get? d.toNat
        ∧ (selectDay resp d.toNat).minTemp = resp.temperature_2m_min.get? d.toNat
        ∧ (selectDay resp d.toNat).precipitation = resp.precipitation_sum.get? d.toNat
        ∧ (selectDay resp d.toNat).weatherCode = resp.weather_code.get? d.toNat) := by
  refine ⟨?_, rfl, rfl, rfl, rfl, ?_, ?_⟩
  · unfold getWeather
    rw [if_neg (by omega)]
    split <;> rfl
  · intro hok
    unfold getWeather
    rw [if_neg (by omega), if_neg (by simp [hok])]
  · intro resp
    exact ⟨rfl, rfl, rfl, rfl, rfl⟩

/-- Concrete instance of C2: requesting offset 3 against a service with
four days of data issues the window-4 request and selects day 3. -/
theorem weather_c2_request_window_witness :
    (getWeather envFourDays 5 6 3).2 = [Request.forecast (forecastRequest 5 6 (3 + 1))]
    ∧ (getWeather envFourDays 5 6 3).1
        = Except.ok (selectDay (envFourDays.openMeteo (forecastRequest 5 6 (3 + 1))) (3 : Int).toNat) := by
  have h := weather_c2_request_window envFourDays 5 6 3 (by decide) (by decide)
  exact ⟨h.1, h.2.2.2.2.2.1 rfl⟩

/-- A network environment whose geocode service answers success but with
an empty places array. -/
def envNoPlace : Env :=
  Env.mk (fun _ => ZippoResponse.mk true [])
    (fun _ => ForecastResponse.mk false [] [] [] [] [])

/-- A network environment whose geocode service answers success with one
in-range place record. -/
def envOnePlace : Env :=
  Env.mk (fun _ => ZippoResponse.mk true [ZippoPlace.mk 42 (-71)])
    (fun _ => ForecastResponse.mk false [] [] [] [] [])

/-- Claim C4: `getCoordinatesFromZip` fails — with an error of the
geocode class and no partial result — exactly when the service answers a
non-success status or an empty places array; otherwise it returns the
parsed coordinates of the first place record. -/
theorem geocode_c4_failure_modes (env : Env) (zipCode : String) :
    ((env.zippo zipCode).ok = false →
        (getCoordinatesFromZip env zipCode).1 = Except.error (WErr.geocodeFailed zipCode))
    ∧ ((env.zippo zipCode).ok = true → (env.zippo zipCode).places = [] →
        (getCoordinatesFromZip env zipCode).1 = Except.error WErr.noPlaceRecord)
    ∧ (∀ place rest, (env.zippo zipCode).ok = true →
        (env.zippo zipCode).places = place :: rest →
        (getCoordinatesFromZip env zipCode).1
          = Except.ok (Coordinates.mk place.latitude place.longitude))
    ∧ (WErr.geocodeFailed zipCode).isGeocodeError = true
    ∧ WErr.noPlaceRecord.isGeocodeError = true := by
  refine ⟨?_, ?_, ?_, rfl, rfl⟩
  · intro hbad
    unfold getCoordinatesFromZip
    rw [if_pos hbad]
  · intro hok hempty
    unfold getCoordinatesFromZip
    rw [if_neg (by simp [hok])]
    split
    · rfl
    · simp_all
  · intro place rest hok hcons
    unfold getCoordinatesFromZip
    rw [if_neg (by simp [hok])]
    split
    · simp_all
    · rename_i p l heq
      rw [hcons] at heq
      cases heq
      rfl

/-- Concrete instances of C4: a non-success status, a success with no
place record, and a success with one place record. -/
theorem geocode_c4_failure_modes_witness :
    (getCoordinatesFromZip envDown ("00000")).1 = Except.error (WErr.geocodeFailed ("00000"))
    ∧ (getCoordinatesFromZip envNoPlace ("00000")).1 = Except.error WErr.noPlaceRecord
    ∧ (getCoordinatesFromZip envOnePlace ("02148")).1 = Except.ok (Coordinates.mk 42 (-71)) :=
  ⟨(geocode_c4_failure_modes envDown ("00000")).1 rfl,
   (geocode_c4_failure_modes envNoPlace ("00000")).2.1 rfl rfl,
   (geocode_c4_failure_modes envOnePlace ("02148")).2.2.1 (ZippoPlace.mk 42 (-71)) [] rfl rfl⟩

/-- A network environment whose geocode service answers success with a
place record far outside the valid latitude range. -/
def envBadGeo : Env :=
  Env.mk (fun _ => ZippoResponse.mk true [ZippoPlace.mk 200 0])
    (fun _ => ForecastResponse.mk false [] [] [] [] [])

/-- Refutation of claim C9 as stated: the geocode succeeds (success
status, one place record) yet the returned latitude is 200, outside the
valid range −90..90 — `getCoordinatesFromZip` performs no range
validation. -/
theorem geocode_c9_counterexample :
    (envBadGeo.zippo ("00000")).ok = true
    ∧ (envBadGeo.zippo ("00000")).places ≠ []
    ∧ (getCoordinatesFromZip envBadGeo ("00000")).1 = Except.ok (Coordinates.mk 200 0)
    ∧ ¬ (Coordinates.mk 200 0).lat ≤ 90 :=
  ⟨rfl, by decide, rfl, by decide⟩

/-- Claim C9 as amended: on a successful geocode the code returns the
first place record's parsed coordinates unchanged, with no range
validation of its own, so the result is finite (a rational) and lies in
the valid latitude/longitude ranges whenever the service's first place
record does. -/
theorem geocode_c9_range_passthrough (env : Env) (zipCode : String)
    (place : ZippoPlace) (rest : List ZippoPlace)
    (hok : (env.zippo zipCode).ok = true)
    (hplaces : (env.zippo zipCode).places = place :: rest)
    (hlat1 : -90 ≤ place.latitude) (hlat2 : place.latitude ≤ 90)
    (hlon1 : -180 ≤ place.longitude) (hlon2 : place.longitude ≤ 180) :
    (getCoordinatesFromZip env zipCode).1
      = Except.ok (Coordinates.mk place.latitude place.longitude)
    ∧ -90 ≤ (Coordinates.mk place.latitude place.longitude).lat
    ∧ (Coordinates.mk place.latitude place.longitude).lat ≤ 90
    ∧ -180 ≤ (Coordinates.mk place.latitude place.longitude).lon
    ∧ (Coordinates.mk place.latitude place.longitude).lon ≤ 180 := by
  refine ⟨?_, hlat1, hlat2, hlon1, hlon2⟩
  unfold getCoordinatesFromZip
  rw [if_neg (by simp [hok])]
  split
  · simp_all
  · rename_i p l heq
    rw [hplaces] at heq
    cases heq
    rfl

/-- Concrete instance of amended C9: an in-range place record is passed
through in range. -/
theorem geocode_c9_range_passthrough_witness :
    (getCoordinatesFromZip envOnePlace ("02148")).1 = Except.ok (Coordinates.mk 42 (-71))
    ∧ -90 ≤ (Coordinates.mk 42 (-71)).lat
    ∧ (Coordinates.mk 42 (-71)).lat ≤ 90
    ∧ -180 ≤ (Coordinates.mk 42 (-71)).lon
    ∧ (Coordinates.mk 42 (-71)).lon ≤ 180 :=
  geocode_c9_range_passthrough envOnePlace ("02148") (ZippoPlace.mk 42 (-71)) [] rfl rfl
    (by decide) (by decide) (by decide) (by decide)

/-- A network environment whose forecast service answers success with a
single day whose weather code 4 is absent from the lookup table. -/
def envUnknownCode : Env :=
  Env.mk (fun _ => ZippoResponse.mk false [])
    (fun _ => ForecastResponse.mk true ["d0"] [75] [60] [0] [4])

/-- Claim C5: when the selected day's weather code is absent from the
lookup table, `getWeather` still returns a successful record and its
description is the literal sentinel Unknown — an unmapped code never
causes a failure. -/
theorem weather_c5_unknown_code (env : Env) (lat lon : Rat) (d : Int) (c : Int)
    (h0 : 0 ≤ d) (h16 : d ≤ 16)
    (hok : (env.openMeteo (forecastRequest lat lon (d + 1))).ok = true)
    (hc : (env.openMeteo (forecastRequest lat lon (d + 1))).weather_code.get? d.toNat = some c)
    (hunmapped : weatherCodes c = none) :
    (getWeather env lat lon d).1
      = Except.ok (selectDay (env.openMeteo (forecastRequest lat lon (d + 1))) d.toNat)
    ∧ (selectDay (env.openMeteo (forecastRequest lat lon (d + 1))) d.toNat).weatherDescription
      = "Unknown" := by
  constructor
  · unfold getWeather
    rw [if_neg (by omega), if_neg (by simp [hok])]
  · unfold selectDay
    simp only [hc]
    simp [describeWeatherCode, hunmapped]

/-- Concrete instance of C5: code 4 is unmapped and yields the Unknown
description on a successful record. -/
theorem weather_c5_unknown_code_witness :
    (getWeather envUnknownCode 42 (-71) 0).1
      = Except.ok (selectDay (envUnknownCode.openMeteo (forecastRequest 42 (-71) (0 + 1))) (0 : Int).toNat)
    ∧ (selectDay (envUnknownCode.openMeteo (forecastRequest 42 (-71) (0 + 1))) (0 : Int).toNat).weatherDescription
      = "Unknown" :=
  weather_c5_unknown_code envUnknownCode 42 (-71) 0 4 (by decide) (by decide) rfl rfl rfl

/-- Claim C3: `getReadableWeatherByZip` is exactly the composition of
geocoding, forecast fetching and formatting; it short-circuits on the
first failing stage — a geocode failure leaves the geocode request as the
only network call — and propagates that stage's error value unchanged,
with no partial result. -/
theorem pipeline_c3_composition (env : Env) (zipCode : String) (d : Int) :
    (∀ e, (getCoordinatesFromZip env zipCode).1 = Except.error e →
        getReadableWeatherByZip env zipCode d = (Except.error e, [Request.geocode zipCode]))
    ∧ (∀ c, (getCoordinatesFromZip env zipCode).1 = Except.ok c →
        (∀ e, (getWeather env c.lat c.lon d).1 = Except.error e →
            (getReadableWeatherByZip env zipCode d).1 = Except.error e)
        ∧ (∀ w, (getWeather env c.lat c.lon d).1 = Except.ok w →
            (getReadableWeatherByZip env zipCode d).1 = Except.ok (formatWeather w))) := by
  have ht := coord_trace env zipCode
  constructor
  · intro e he
    rcases hg : getCoordinatesFromZip env zipCode with ⟨r, tr⟩
    rw [hg] at he ht
    simp only at he ht
    subst he ht
    simp [getReadableWeatherByZip, getWeatherByZip, hg]
  · intro c hc
    rcases hg : getCoordinatesFromZip env zipCode with ⟨r, tr⟩
    rw [hg] at hc ht
    simp only at hc ht
    subst hc ht
    constructor
    · intro e he
      rcases hw : getWeather env c.lat c.lon d with ⟨rw2, tw⟩
      rw [hw] at he
      simp only at he
      subst he
      simp [getReadableWeatherByZip, getWeatherByZip, hg, hw]
    · intro w hwk
      rcases hw : getWeather env c.lat c.lon d with ⟨rw2, tw⟩
      rw [hw] at hwk
      simp only at hwk
      subst hwk
      simp [getReadableWeatherByZip, getWeatherByZip, hg, hw]

/-- A network environment with a successful geocode and a successful
one-day forecast (the spec's end-to-end scenario). -/
def envE2E : Env :=
  Env.mk (fun _ => ZippoResponse.mk true [ZippoPlace.mk 42 (-71)])
    (fun _ => ForecastResponse.mk true ["2024-06-01"] [75] [60] [0] [1])

/-- Concrete instances of C3: a geocode failure short-circuits the
pipeline with the geocode error and no forecast request, and a fully
successful run returns the formatted record. -/
theorem pipeline_c3_composition_witness :
    getReadableWeatherByZip envDown ("00000") 1
      = (Except.error (WErr.geocodeFailed ("00000")), [Request.geocode ("00000")])
    ∧ (getReadableWeatherByZip envE2E ("02148") 0).1
      = Except.ok (formatWeather (WeatherData.mk (some ("2024-06-01")) (some 75) (some 60)
          (some 0) (some 1) ("Mainly clear"))) :=
  ⟨(pipeline_c3_composition envDown ("00000") 1).1 (WErr.geocodeFailed ("00000")) rfl,
   ((pipeline_c3_composition envE2E ("02148") 0).2 (Coordinates.mk 42 (-71)) rfl).2
     (WeatherData.mk (some ("2024-06-01")) (some 75) (some 60) (some 0) (some 1)
       ("Mainly clear")) rfl⟩

/-- Claim C7: the invoke path of a created tool validates the raw payload
against the schema first; on validation failure the call fails with that
ValidationError and the wrapped execute function is never invoked, and on
success the execute function is invoked exactly once, on the parsed typed
value. -/
theorem tool_c7_validation_gate {Raw P Ctx R : Type}
    (opts : CreateToolOptions Raw P Ctx R) (raw : Raw) (ctx : Ctx) :
    (∀ e, opts.schema.parse raw = Except.error e →
        (createTool opts).execute raw ctx = (Except.error e, []))
    ∧ (∀ v, opts.schema.parse raw = Except.ok v →
        (createTool opts).execute raw ctx = (Except.ok (opts.execute v ctx), [v])) := by
  constructor
  · intro e he
    simp [createTool, he]
  · intro v hv
    simp [createTool, hv]

/-- A toy schema standing in for the Zod object schema of main.ts lines
82-85: the raw payload parses to an integer when present and fails with a
field-level issue when absent; its interchange image carries no root type
marker. -/
def demoSchema : ZodSchemaM (Option Int) Int :=
  ZodSchemaM.mk
    (fun raw => match raw with
      | some n => Except.ok n
      | none => Except.error (ValidationError.mk ["zipcode: Required"]))
    (JsonSchema.mk none [("zipcode", "string"), ("daysAhead", "integer")] ["zipcode", "daysAhead"])

/-- The options record of the weather tool, over the toy schema. -/
def demoOpts : CreateToolOptions (Option Int) Int Unit Int :=
  CreateToolOptions.mk ("weatherForcasting")
    ("Get the weather forecast for a U.S. zipcode for N days ahead")
    demoSchema (fun p _ => p + 1)

/-- Concrete instances of C7: an invalid payload yields the
ValidationError and zero invocations of the wrapped function; a valid
payload yields exactly one invocation on the parsed value. -/
theorem tool_c7_validation_gate_witness :
    (createTool demoOpts).execute none () = (Except.error (ValidationError.mk ["zipcode: Required"]), [])
    ∧ (createTool demoOpts).execute (some 3) () = (Except.ok (demoOpts.execute 3 ()), [3]) :=
  ⟨(tool_c7_validation_gate demoOpts none ()).1 (ValidationError.mk ["zipcode: Required"]) rfl,
   (tool_c7_validation_gate demoOpts (some 3) ()).2 3 rfl⟩

/-- Claim C8: when converting the schema to its JSON Schema
representation yields no root type marker, the tool wrapper sets the root
type to the default object before exposing the descriptor. -/
theorem tool_c8_default_root_type {Raw P Ctx R : Type}
    (opts : CreateToolOptions Raw P Ctx R)
    (h : opts.schema.toJsonSchema.type = none) :
    (createTool opts).parameters.type = some ("object") := by
  simp [createTool, h]

/-- Concrete instance of C8: the toy schema's interchange image has no
root type marker, and the created tool's descriptor carries type
object. -/
theorem tool_c8_default_root_type_witness :
    (createTool demoOpts).parameters.type = some ("object") :=
  tool_c8_default_root_type demoOpts rfl

lemma dropWhile_append_cons (p : Char → Bool) (xs ys : List Char) (y : Char)
    (hy : p y = false) :
    List.dropWhile p (xs ++ y :: ys) = List.dropWhile p xs ++ y :: ys := by
  induction xs with
  | nil => simp [List.dropWhile_cons, hy]
  | cons x xs ih =>
      by_cases hx : p x
      · simp [List.dropWhile_cons, hx, ih]
      · simp [List.dropWhile_cons, hx]

/-- Shape of `jsTrim` on the strings `formatWeather` builds: a leading
newline, a non-whitespace head, and a last guaranteed non-whitespace
character `y` after which only `B` follows; the trim removes exactly the
leading newline and the trailing whitespace of `B`. -/
lemma jsTrim_core (x y : Char) (hx : Char.isWhitespace x = false)
    (hy : Char.isWhitespace y = false) (A B : List Char) :
    jsTrim ('\n' :: x :: (A ++ y :: B))
      = x :: (A ++ y :: (List.dropWhile Char.isWhitespace B.reverse).reverse) := by
  unfold jsTrim
  have h1 : List.dropWhile Char.isWhitespace ('\n' :: x :: (A ++ y :: B))
      = x :: (A ++ y :: B) := by
    rw [List.dropWhile_cons_of_pos (by decide), List.dropWhile_cons_of_neg (by simp [hx])]
  rw [h1]
  have h2 : (x :: (A ++ y :: B)).reverse = B.reverse ++ y :: (A.reverse ++ [x]) := by
    simp
  rw [h2, dropWhile_append_cons _ _ _ _ hy]
  simp

/-- The characters of a formatted record from the second character up to
(and not including) the colon of the final Description label: this part
of the template always survives the trim. -/
def fmtHead (dt desc : String) (mx mn pr : Rat) : List Char :=
  ("eather Forecast for ").data
    ++ (dt.data
    ++ (("\nCondition: ").data
    ++ (desc.data
    ++ (("\nHigh: ").data
    ++ ((jsNumber mx).data
    ++ (("°F\nLow: ").data
    ++ ((jsNumber mn).data
    ++ (("°F\nPrecipitation: ").data
    ++ ((jsNumber pr).data
    ++ (" mm\nDescription").data)))))))))

/-- Decomposition of a formatted well-formed record: the trim removes the
leading newline and, because the colon of the final Description label is
never whitespace, everything up to and including that colon survives the
trailing trim verbatim. -/
lemma formatWeather_decomp (dt desc : String) (mx mn pr : Rat) (wc : Option Int) :
    ∃ tail : List Char,
      (formatWeather (WeatherData.mk (some dt) (some mx) (some mn) (some pr) wc desc)).data
        = 'W' :: (fmtHead dt desc mx mn pr ++ ':' :: tail) := by
  refine ⟨(List.dropWhile Char.isWhitespace
      ((' ' :: (desc.data ++ ['\n', ' ', ' '])).reverse)).reverse, ?_⟩
  have e1 : ("\nWeather Forecast for ").data
      = '\n' :: 'W' :: ("eather Forecast for ").data := rfl
  have e2 : (" mm\nDescription: ").data = (" mm\nDescription").data ++ (':' :: [' ']) := rfl
  have e3 : ("\n  ").data = ['\n', ' ', ' '] := rfl
  have key := jsTrim_core 'W' ':' (by decide) (by decide)
    (fmtHead dt desc mx mn pr) (' ' :: (desc.data ++ ['\n', ' ', ' ']))
  have hX : (String.data
      ("\nWeather Forecast for " ++ jsStr (some dt)
        ++ "\nCondition: " ++ desc
        ++ "\nHigh: " ++ jsNumStr (some mx)
        ++ "°F\nLow: " ++ jsNumStr (some mn)
        ++ "°F\nPrecipitation: " ++ jsNumStr (some pr)
        ++ " mm\nDescription: " ++ desc
        ++ "\n  "))
      = '\n' :: 'W' :: (fmtHead dt desc mx mn pr
          ++ ':' :: (' ' :: (desc.data ++ ['\n', ' ', ' ']))) := by
    simp only [String.data_append, jsStr, jsNumStr, e1, e2, e3, fmtHead]
    simp [List.append_assoc]
  unfold formatWeather
  dsimp only
  rw [hX, key]

/-- Claim C6: `formatWeather` is a total function on records — here
stated for every well-formed record, i.e. every record whose five data
fields are defined, with an arbitrary description including the Unknown
sentinel — and its result contains the record's date, description, high
and low temperatures and precipitation, on multiple lines. -/
theorem format_c6_total (dt desc : String) (mx mn pr : Rat) (wc : Option Int) :
    dt.data <:+: (formatWeather (WeatherData.mk (some dt) (some mx) (some mn) (some pr) wc desc)).data
    ∧ desc.data <:+: (formatWeather (WeatherData.mk (some dt) (some mx) (some mn) (some pr) wc desc)).data
    ∧ (jsNumber mx).data <:+: (formatWeather (WeatherData.mk (some dt) (some mx) (some mn) (some pr) wc desc)).data
    ∧ (jsNumber mn).data <:+: (formatWeather (WeatherData.mk (some dt) (some mx) (some mn) (some pr) wc desc)).data
    ∧ (jsNumber pr).data <:+: (formatWeather (WeatherData.mk (some dt) (some mx) (some mn) (some pr) wc desc)).data
    ∧ '\n' ∈ (formatWeather (WeatherData.mk (some dt) (some mx) (some mn) (some pr) wc desc)).data := by
  obtain ⟨tail, hF⟩ := formatWeather_decomp dt desc mx mn pr wc
  rw [hF]
  refine ⟨⟨'W' :: ("eather Forecast for ").data,
      ("\nCondition: ").data ++ (desc.data ++ (("\nHigh: ").data ++ ((jsNumber mx).data
        ++ (("°F\nLow: ").data ++ ((jsNumber mn).data ++ (("°F\nPrecipitation: ").data
        ++ ((jsNumber pr).data ++ ((" mm\nDescription").data ++ ':' :: tail)))))))), ?_⟩,
    ⟨'W' :: (("eather Forecast for ").data ++ (dt.data ++ ("\nCondition: ").data)),
      ("\nHigh: ").data ++ ((jsNumber mx).data ++ (("°F\nLow: ").data ++ ((jsNumber mn).data
        ++ (("°F\nPrecipitation: ").data ++ ((jsNumber pr).data
        ++ ((" mm\nDescription").data ++ ':' :: tail)))))), ?_⟩,
    ⟨'W' :: (("eather Forecast for ").data ++ (dt.data ++ (("\nCondition: ").data
        ++ (desc.data ++ ("\nHigh: ").data)))),
      ("°F\nLow: ").data ++ ((jsNumber mn).data ++ (("°F\nPrecipitation: ").data
        ++ ((jsNumber pr).data ++ ((" mm\nDescription").data ++ ':' :: tail)))), ?_⟩,
    ⟨'W' :: (("eather Forecast for ").data ++ (dt.data ++ (("\nCondition: ").data
        ++ (desc.data ++ (("\nHigh: ").data ++ ((jsNumber mx).data ++ ("°F\nLow: ").data)))))),
      ("°F\nPrecipitation: ").data ++ ((jsNumber pr).data
        ++ ((" mm\nDescription").data ++ ':' :: tail)), ?_⟩,
    ⟨'W' :: (("eather Forecast for ").data ++ (dt.data ++ (("\nCondition: ").data
        ++ (desc.data ++ (("\nHigh: ").data ++ ((jsNumber mx).data ++ (("°F\nLow: ").data
        ++ ((jsNumber mn).data ++ ("°F\nPrecipitation: ").data)))))))),
      (" mm\nDescription").data ++ ':' :: tail, ?_⟩, ?_⟩
  · simp [fmtHead, List.append_assoc]
  · simp [fmtHead, List.append_assoc]
  · simp [fmtHead, List.append_assoc]
  · simp [fmtHead, List.append_assoc]
  · simp [fmtHead, List.append_assoc]
  · apply List.mem_cons_of_mem
    apply List.mem_append_left
    unfold fmtHead
    apply List.mem_append_right
    apply List.mem_append_right
    apply List.mem_append_left
    decide

/-- Claim C10 as amended: for every well-formed record whose description
ends in a non-whitespace character — true of every description the
pipeline produces, including the Unknown sentinel — the formatted string
is exactly the rendered template, in which the description value occurs
twice: once on the Condition line and once on the final Description
line.  (When the description ends in whitespace the trailing trim clips
the second occurrence, refuting the unrestricted claim.) -/
theorem format_c10_duplicate_description (dt desc : String) (mx mn pr : Rat)
    (wc : Option Int) (l : List Char) (c : Char)
    (hdesc : desc.data = l ++ [c]) (hc : Char.isWhitespace c = false) :
    (formatWeather (WeatherData.mk (some dt) (some mx) (some mn) (some pr) wc desc)).data
      = ("Weather Forecast for " ++ dt ++ "\nCondition: " ++ desc ++ "\nHigh: "
          ++ jsNumber mx ++ "°F\nLow: " ++ jsNumber mn ++ "°F\nPrecipitation: "
          ++ jsNumber pr ++ " mm\nDescription: " ++ desc).data := by
  have e1 : ("\nWeather Forecast for ").data
      = '\n' :: 'W' :: ("eather Forecast for ").data := rfl
  have e1b : ("Weather Forecast for ").data
      = 'W' :: ("eather Forecast for ").data := rfl
  have e3 : ("\n  ").data = ['\n', ' ', ' '] := rfl
  have key := jsTrim_core 'W' c (by decide) hc
    (("eather Forecast for ").data
      ++ (dt.data
      ++ (("\nCondition: ").data
      ++ (desc.data
      ++ (("\nHigh: ").data
      ++ ((jsNumber mx).data
      ++ (("°F\nLow: ").data
      ++ ((jsNumber mn).data
      ++ (("°F\nPrecipitation: ").data
      ++ ((jsNumber pr).data
      ++ ((" mm\nDescription: ").data ++ l)))))))))))
    ['\n', ' ', ' ']
  have hdrop : (List.dropWhile Char.isWhitespace
      (['\n', ' ', ' '] : List Char).reverse).reverse = ([] : List Char) := by decide
  rw [hdrop] at key
  have hX : (String.data
      ("\nWeather Forecast for " ++ jsStr (some dt)
        ++ "\nCondition: " ++ desc
        ++ "\nHigh: " ++ jsNumStr (some mx)
        ++ "°F\nLow: " ++ jsNumStr (some mn)
        ++ "°F\nPrecipitation: " ++ jsNumStr (some pr)
        ++ " mm\nDescription: " ++ desc
        ++ "\n  "))
      = '\n' :: 'W' :: ((("eather Forecast for ").data
          ++ (dt.data
          ++ (("\nCondition: ").data
          ++ (desc.data
          ++ (("\nHigh: ").data
          ++ ((jsNumber mx).data
          ++ (("°F\nLow: ").data
          ++ ((jsNumber mn).data
          ++ (("°F\nPrecipitation: ").data
          ++ ((jsNumber pr).data
          ++ ((" mm\nDescription: ").data ++ l)))))))))))
          ++ c :: ['\n', ' ', ' ']) := by
    simp only [String.data_append, jsStr, jsNumStr, e1, e3]
    rw [hdesc]
    simp [List.append_assoc]
  unfold formatWeather
  dsimp only
  rw [hX, key]
  simp only [String.data_append, e1b]
  rw [hdesc]
  simp [List.append_assoc]

/-- Concrete instance of amended C10: formatting the end-to-end scenario
record with the Unknown description renders the template with the
description on both the Condition and the Description lines. -/
theorem format_c10_duplicate_description_witness :
    (formatWeather (WeatherData.mk (some ("2024-06-01")) (some 75) (some 60) (some 0)
        (some 100) ("Unknown"))).data
      = ("Weather Forecast for " ++ "2024-06-01" ++ "\nCondition: " ++ "Unknown" ++ "\nHigh: "
          ++ jsNumber 75 ++ "°F\nLow: " ++ jsNumber 60 ++ "°F\nPrecipitation: "
          ++ jsNumber 0 ++ " mm\nDescription: " ++ "Unknown").data :=
  format_c10_duplicate_description ("2024-06-01") ("Unknown") 75 60 0 (some 100)
    (String.data ("Unknow")) 'n' (by decide) (by decide)

set_option maxRecDepth 8000 in
/-- Refutation of claim C10 as stated over every record: a record whose
description ends in whitespace has that second occurrence clipped by the
final trim — the output no longer contains the description after the
Description label, while the Condition line still carries it. -/
theorem format_c10_counterexample :
    ¬ (("Description: " ++ "x ").data
        <:+: (formatWeather (WeatherData.mk (some ("2024-06-01")) (some 75) (some 60)
          (some 0) (some 1) ("x "))).data)
    ∧ (("Condition: " ++ "x ").data
        <:+: (formatWeather (WeatherData.mk (some ("2024-06-01")) (some 75) (some 60)
          (some 0) (some 1) ("x "))).data) := by
  constructor
  · decide
  · decide
